import Mathlib

/-
Verification of the RCM (RADARSAT Constellation Mission) GDAL raster driver
against its natural-language specification.

The definitions below are a shallow embedding of the driver sources
(frmts/rcm/rcmdataset.cpp and frmts/rcm/rcmdataset.h).  C integers are
modelled as Int, C doubles and floats as Rat (the claims under study are
about the arithmetic structure of the computations, not about rounding),
C strings as List Char, and nullable pointers as Option.  Output buffers
of block reads are modelled as functions from element offset to value,
and the per-pixel write loops as a left fold of single-element updates,
in loop order.
-/

/-! ## Generic machinery: buffers and write loops -/

/-- A sequence of writes (element offset, value) applied to a buffer, in order. -/
def runWrites {α : Type} (init : ℤ → α) (ws : List (ℤ × α)) : ℤ → α :=
  ws.foldl (fun b w => Function.update b w.1 w.2) init

/-- Index pairs (i, j) visited by the nested loop
`for i in [0, nReqY) { for j in [0, nReqX) { ... } }`, in loop order. -/
def loopPairs (nReqY nReqX : ℤ) : List (ℤ × ℤ) :=
  ((List.range nReqY.toNat) ×ˢ (List.range nReqX.toNat)).map
    (fun p => ((p.1 : ℤ), (p.2 : ℤ)))

lemma mem_loopPairs {Y X i j : ℤ} :
    (i, j) ∈ loopPairs Y X ↔ 0 ≤ i ∧ i < Y ∧ 0 ≤ j ∧ j < X := by
  constructor
  · intro h
    rw [loopPairs, List.mem_map] at h
    obtain ⟨⟨a, b⟩, hab, hcast⟩ := h
    rw [List.mem_product] at hab
    simp only [List.mem_range] at hab
    simp only [Prod.ext_iff] at hcast
    omega
  · intro ⟨h1, h2, h3, h4⟩
    rw [loopPairs, List.mem_map]
    refine ⟨(i.toNat, j.toNat), ?_, ?_⟩
    · rw [List.mem_product]
      simp only [List.mem_range]
      omega
    · simp only [Prod.ext_iff]
      omega

lemma nodup_loopPairs (Y X : ℤ) : (loopPairs Y X).Nodup := by
  apply List.Nodup.map
  · intro p q h
    simp only [Prod.ext_iff] at h ⊢
    omega
  · exact (List.nodup_range Y.toNat).product (List.nodup_range X.toNat)

lemma runWrites_not_mem {α : Type} (init : ℤ → α) (ws : List (ℤ × α)) (k : ℤ)
    (h : k ∉ ws.map Prod.fst) : runWrites init ws k = init k := by
  induction ws generalizing init with
  | nil => rfl
  | cons w ws ih =>
    simp only [List.map_cons, List.mem_cons, not_or] at h
    show runWrites (Function.update init w.1 w.2) ws k = init k
    rw [ih _ h.2, Function.update_noteq h.1]

lemma runWrites_lookup {α : Type} (init : ℤ → α) (ws : List (ℤ × α)) {k : ℤ} {v : α}
    (hmem : (k, v) ∈ ws) (hnd : (ws.map Prod.fst).Nodup) :
    runWrites init ws k = v := by
  induction ws generalizing init with
  | nil => cases hmem
  | cons w ws ih =>
    simp only [List.map_cons, List.nodup_cons] at hnd
    rcases List.mem_cons.mp hmem with heq | hmem2
    · subst heq
      show runWrites (Function.update init k v) ws k = v
      rw [runWrites_not_mem _ _ _ hnd.1, Function.update_same]
    · exact ih _ hmem2 hnd.2

/-- An element offset `i * W + j` with `0 ≤ j < W` determines `i` and `j`. -/
lemma key_inj {W i1 j1 i2 j2 : ℤ} (hj1 : 0 ≤ j1) (hj1W : j1 < W) (hj2 : 0 ≤ j2)
    (hj2W : j2 < W) (h : i1 * W + j1 = i2 * W + j2) : i1 = i2 ∧ j1 = j2 := by
  have hW : 0 < W := lt_of_le_of_lt hj1 hj1W
  have hi : i1 = i2 := by
    rcases lt_trichotomy i1 i2 with hlt | heq | hgt
    · exfalso; nlinarith
    · exact heq
    · exfalso; nlinarith
  subst hi
  exact ⟨rfl, by linarith⟩

lemma nodup_writeKeys {α : Type} (Y X W : ℤ) (hXW : X ≤ W) (f : ℤ × ℤ → α) :
    (((loopPairs Y X).map (fun q => (q.1 * W + q.2, f q))).map Prod.fst).Nodup := by
  rw [List.map_map]
  apply List.Nodup.map_on _ (nodup_loopPairs Y X)
  intro p hp q hq hpq
  rw [mem_loopPairs] at hp hq
  simp only [Function.comp] at hpq
  have hk := key_inj hp.2.2.1 (lt_of_lt_of_le hp.2.2.2 hXW) hq.2.2.1
    (lt_of_lt_of_le hq.2.2.2 hXW) hpq
  obtain ⟨hk1, hk2⟩ := hk
  cases p
  cases q
  simp_all

/-- Reading a written position of a block write loop yields the written value. -/
lemma runWrites_block_written {α : Type} (init : ℤ → α) (W Y X : ℤ) (f : ℤ × ℤ → α)
    (i j : ℤ) (hi0 : 0 ≤ i) (hj0 : 0 ≤ j) (hi : i < Y) (hj : j < X) (hXW : X ≤ W) :
    runWrites init ((loopPairs Y X).map (fun q => (q.1 * W + q.2, f q))) (i * W + j)
      = f (i, j) := by
  apply runWrites_lookup
  · rw [List.mem_map]
    exact ⟨(i, j), mem_loopPairs.mpr ⟨hi0, hi, hj0, hj⟩, rfl⟩
  · exact nodup_writeKeys Y X W hXW f

/-- Reading an unwritten position of a block write loop yields the initial value. -/
lemma runWrites_block_unwritten {α : Type} (init : ℤ → α) (W Y X : ℤ) (f : ℤ × ℤ → α)
    (i j : ℤ) (hj0 : 0 ≤ j) (hjW : j < W) (huncov : Y ≤ i ∨ X ≤ j) (hXW : X ≤ W) :
    runWrites init ((loopPairs Y X).map (fun q => (q.1 * W + q.2, f q))) (i * W + j)
      = init (i * W + j) := by
  apply runWrites_not_mem
  rw [List.map_map]
  intro hmem
  rw [List.mem_map] at hmem
  obtain ⟨q, hq, hkey⟩ := hmem
  rw [mem_loopPairs] at hq
  simp only [Function.comp] at hkey
  have hk := key_inj hq.2.2.1 (lt_of_lt_of_le hq.2.2.2 hXW) hj0 hjW hkey
  omega

/-! ## C strings, case-insensitive comparison (CPL EQUAL / STARTS_WITH_CI) -/

/-- ASCII toupper, as used by the case-insensitive CPL string helpers. -/
def toupperC (c : Char) : Char :=
  if 'a' ≤ c ∧ c ≤ 'z' then Char.ofNat (c.toNat - 32) else c

/-- CPL EQUAL: case-insensitive string equality. -/
def cplEqual (a b : List Char) : Bool := a.map toupperC == b.map toupperC

/-- CPL STARTS_WITH_CI: case-insensitive prefix test. -/
def startsWithCI (s p : List Char) : Bool :=
  (p.map toupperC).isPrefixOf (s.map toupperC)

/-! ## Data model: GDAL scalar types, band mapping, calibration kinds -/

inductive GDALDataType
  | GDT_Byte
  | GDT_UInt16
  | GDT_Int16
  | GDT_UInt32
  | GDT_Int32
  | GDT_Float32
  | GDT_Float64
  | GDT_CInt16
  | GDT_CInt32
  | GDT_CFloat32
  | GDT_CFloat64
  deriving DecidableEq, Repr

def GDALDataTypeIsComplex (t : GDALDataType) : Bool :=
  match t with
  | .GDT_CInt16 | .GDT_CInt32 | .GDT_CFloat32 | .GDT_CFloat64 => true
  | _ => false

inductive BandMappingRCM
  | BANDERROR
  | STRAIGHT
  | TWOBANDCOMPLEX
  deriving DecidableEq, Repr

inductive eCalibration
  | Sigma0
  | Beta0
  | Gamma
  | Uncalib
  | None
  deriving DecidableEq, Repr

inductive CPLErr
  | CE_None
  | CE_Warning
  | CE_Failure
  deriving DecidableEq, Repr

/-- A C double that may hold NAN (needed to state what the raw-band LUT
accessors return); ordinary finite values are rationals. -/
inductive RDouble
  | finite (q : ℚ)
  | nan
  deriving DecidableEq, Repr

/-! ## Band-file prober (checkBandFileMappingRCM, rcmdataset.cpp lines 155-192) -/

/-- The facts about an opened underlying image file that the prober inspects:
its raster band count and the element types of bands 1 and 2 (band 2 is only
consulted when the count is exactly 2). -/
structure BandFileInfo where
  rasterCount : ℤ
  bandType1 : GDALDataType
  bandType2 : GDALDataType

/-- checkBandFileMappingRCM: classify the mapping between the file bands and
the logical RCM band.  Mirrors the source control flow: the straight 1-or-4
band rule, then the two-band checks (unequal band types return BANDERROR
before the NITF escape hatch is consulted), then the NITF escape hatch. -/
def checkBandFileMappingRCM (dataType : GDALDataType) (poBandFile : BandFileInfo)
    (isNITF : Bool) : BandMappingRCM :=
  let bandfileType := poBandFile.bandType1
  if (poBandFile.rasterCount = 1 ∨ poBandFile.rasterCount = 4) ∧ dataType = bandfileType then
    .STRAIGHT
  else if poBandFile.rasterCount = 2 ∧ GDALDataTypeIsComplex dataType = true then
    if bandfileType ≠ poBandFile.bandType2 then
      .BANDERROR
    else if (dataType = .GDT_CInt16 ∧ bandfileType = .GDT_Int16) ∨
        (dataType = .GDT_CInt32 ∧ bandfileType = .GDT_Int32) ∨
        (dataType = .GDT_CFloat32 ∧ bandfileType = .GDT_Float32) ∨
        (dataType = .GDT_CFloat64 ∧ bandfileType = .GDT_Float64) then
      .TWOBANDCOMPLEX
    else if (dataType = .GDT_CInt16 ∧ bandfileType = .GDT_CInt16) ∨
        (dataType = .GDT_CInt32 ∧ bandfileType = .GDT_CInt32) ∨
        (dataType = .GDT_CFloat32 ∧ bandfileType = .GDT_CFloat32) ∨
        (dataType = .GDT_CFloat64 ∧ bandfileType = .GDT_CFloat64) then
      .TWOBANDCOMPLEX
    else if isNITF then .STRAIGHT
    else .BANDERROR
  else if isNITF then .STRAIGHT
  else .BANDERROR

/-! ## Raw band (RCMRasterBand, rcmdataset.cpp lines 198-422) -/

/-- State of a raw (uncalibrated) band as set up by the RCMRasterBand
constructor.  A raw band holds no LUT (m_nfTable stays NULL, m_nTableSize 0,
m_nfOffset 0, m_pszLUTFile NULL). -/
structure RCMRasterBand where
  nBand : ℤ
  eDataType : GDALDataType
  twoBandComplex : Bool
  isOneFilePerPol : Bool
  isNITF : Bool
  nBlockXSize : ℤ
  nBlockYSize : ℤ

/-- The RCMRasterBand constructor (lines 198-235): records the passed element
type as the reported eDataType and the mapping flags. -/
def mkRCMRasterBand (nBandIn : ℤ) (eDataTypeIn : GDALDataType)
    (bTwoBandComplex isOneFilePerPol isNITF : Bool)
    (nBlockXSize nBlockYSize : ℤ) : RCMRasterBand :=
  { nBand := nBandIn
  , eDataType := eDataTypeIn
  , twoBandComplex := bTwoBandComplex
  , isOneFilePerPol := isOneFilePerPol
  , isNITF := isNITF
  , nBlockXSize := nBlockXSize
  , nBlockYSize := nBlockYSize }

/-- RCMRasterBand::GetLUT (line 237): returns NAN for every pixel. -/
def RCMRasterBand.GetLUT (_b : RCMRasterBand) (_pixel : ℤ) : RDouble := .nan

/-- RCMRasterBand::GetLUTsize (line 242): returns 0. -/
def RCMRasterBand.GetLUTsize (_b : RCMRasterBand) : ℤ := 0

/-- RCMRasterBand::GetLUTFilename (line 247): returns NULL. -/
def RCMRasterBand.GetLUTFilename (_b : RCMRasterBand) : Option (List Char) := none

/-- RCMRasterBand::GetLUTOffset (line 252): returns 0.0. -/
def RCMRasterBand.GetLUTOffset (_b : RCMRasterBand) : RDouble := .finite 0

/-- RCMRasterBand::IsExistLUT (line 267): returns false. -/
def RCMRasterBand.IsExistLUT (_b : RCMRasterBand) : Bool := false

/-- RCMRasterBand::SetPartialLUT (line 277): a no-op on a raw band. -/
def RCMRasterBand.SetPartialLUT (b : RCMRasterBand) (_pixel_offset _pixel_width : ℤ)
    : RCMRasterBand := b

/-- The clipped request size along one axis (the X and Y clipping code at the
top of both IReadBlock implementations): when the block extends past the
raster edge, only the covered portion is requested. -/
def nRequestSize (nBlockOff nBlockSize nRasterSize : ℤ) : ℤ :=
  if (nBlockOff + 1) * nBlockSize > nRasterSize then
    nRasterSize - nBlockOff * nBlockSize
  else nBlockSize

lemma nRequestSize_le (off s r : ℤ) : nRequestSize off s r ≤ s := by
  unfold nRequestSize
  split_ifs with h
  · have h2 : (off + 1) * s = off * s + s := by ring
    linarith
  · exact le_refl s

/-- The inputs to a raw-band block read: the geometry, the dispatch flags,
and the sample values the underlying file delivers (indexed by absolute
raster row and column; for the complex cases the value already carries the
interleaved I and Q pair, which is why the value type is a parameter). -/
structure RCMRasterBandModel (α : Type) where
  nBlockXSize : ℤ
  nBlockYSize : ℤ
  nRasterXSize : ℤ
  nRasterYSize : ℤ
  twoBandComplex : Bool
  isNITF : Bool
  datasetIsComplexData : Bool
  bandTypeMatches : Bool
  sample : ℤ → ℤ → α

/-- RCMRasterBand::IReadBlock (lines 318-422).  Straddling blocks zero the
whole output and clip the request; every successful dispatch branch fills
element offsets `i * nBlockXSize + j` of the covered window with the
underlying sample of the corresponding absolute pixel; when no dispatch case
applies the read fails (CPLAssert(FALSE) / CE_Failure). -/
def RCMRasterBand.IReadBlock {α : Type} (bm : RCMRasterBandModel α) (zero : α)
    (nBlockXOff nBlockYOff : ℤ) (pImage : ℤ → α) : Option (ℤ → α) :=
  let nRequestYSize := nRequestSize nBlockYOff bm.nBlockYSize bm.nRasterYSize
  let nRequestXSize := nRequestSize nBlockXOff bm.nBlockXSize bm.nRasterXSize
  let pImage1 := if (nBlockYOff + 1) * bm.nBlockYSize > bm.nRasterYSize then
    (fun _ => zero) else pImage
  let pImage2 := if (nBlockXOff + 1) * bm.nBlockXSize > bm.nRasterXSize then
    (fun _ => zero) else pImage1
  let ws := (loopPairs nRequestYSize nRequestXSize).map (fun q =>
    (q.1 * bm.nBlockXSize + q.2,
     bm.sample (nBlockYOff * bm.nBlockYSize + q.1) (nBlockXOff * bm.nBlockXSize + q.2)))
  if bm.twoBandComplex = true ∧ bm.isNITF = false then
    some (runWrites pImage2 ws)
  else if bm.twoBandComplex = true ∧ bm.isNITF = true then
    some (runWrites pImage2 ws)
  else if bm.datasetIsComplexData = true then
    some (runWrites pImage2 ws)
  else if bm.bandTypeMatches = true then
    some (runWrites pImage2 ws)
  else none

/-! ## LUT interpolation and the calibrated band
(RCMCalibRasterBand, rcmdataset.cpp lines 437-838) -/

/-- Modelled from the spec: helper for `InterpolateValues` below, giving the
dense-table entry at index x per spec section 4.1: indices up to
pixelFirstLutValue receive the first raw value; the index
pixelFirstLutValue + k * s receives the k-th raw value; interior indices
are linearly interpolated between the bracketing raw values; indices beyond
the last raw position receive the last raw value. -/
def interpolateValueAt (v : List ℚ) (s numberOfValues pixelFirstLutValue x : ℤ) : ℚ :=
  let first := v.headD 0
  if x ≤ pixelFirstLutValue then first
  else if pixelFirstLutValue + (numberOfValues - 1) * s ≤ x then
    v.getD (numberOfValues - 1).toNat first
  else
    let k := (x - pixelFirstLutValue) / s
    let r := (x - pixelFirstLutValue) % s
    let a := v.getD k.toNat first
    let b := v.getD (k.toNat + 1) first
    a + (b - a) * (r : ℚ) / (s : ℚ)

/-- Modelled from the spec: `InterpolateValues` is declared in
gcore/gdal_lut.h but implemented in gcore/gdalrasterband.cpp, which is not
among the provided sources.  Per spec section 4.1: expand the raw list into
a dense table of length tableSize, with the list reversed when stepSize is
negative, through `interpolateValueAt`. -/
def InterpolateValues (papszList : List ℚ) (tableSize stepSize numberOfValues
    pixelFirstLutValue : ℤ) : List ℚ :=
  (List.range tableSize.toNat).map (fun (idx : ℕ) =>
    interpolateValueAt (if stepSize < 0 then papszList.reverse else papszList)
      |stepSize| numberOfValues pixelFirstLutValue (idx : ℤ))

lemma InterpolateValues_length (papszList : List ℚ) (tableSize stepSize numberOfValues
    pixelFirstLutValue : ℤ) :
    (InterpolateValues papszList tableSize stepSize numberOfValues
      pixelFirstLutValue).length = tableSize.toNat := by
  rw [InterpolateValues, List.length_map, List.length_range]

/-- The scalars and gains list parsed out of a LUT XML file by ReadLUT. -/
structure LutParams where
  offset : ℚ
  pixelFirstLutValue : ℤ
  stepSize : ℤ
  numberOfValues : ℤ
  gains : List ℚ

/-- RCMCalibRasterBand::ReadLUT (lines 437-523), reduced to its data flow:
the three early-error returns (numberOfValues at most 0; stepSize at most 0
together with pixelFirstLutValue at most 0, the descending-product guard;
synthesized table size below the raster width) leave the table unset (none);
otherwise the dense table of m_nTableSize entries is built and, with the
table size, published in the dataset metadata (LUT_SIZE_band). -/
def ReadLUT (p : LutParams) (nRasterXSize : ℤ) : Option (List ℚ × ℤ) :=
  if p.numberOfValues ≤ 0 then none
  else if p.stepSize ≤ 0 ∧ p.pixelFirstLutValue ≤ 0 then none
  else
    let m_nTableSize := |p.stepSize| * |p.numberOfValues|
    if m_nTableSize < nRasterXSize then none
    else some (InterpolateValues p.gains m_nTableSize p.stepSize p.numberOfValues
      p.pixelFirstLutValue, m_nTableSize)

/-- State of a calibrated band: the reported element type, the original
element type kept for dispatch, the owned LUT (none when ReadLUT bailed
out with an error), its size field, the offset, and the value the dataset
metadata item LUT_SIZE_band holds for this band (none when ReadLUT bailed
out before publishing it). -/
structure RCMCalibRasterBand where
  eDataType : GDALDataType
  m_eOriginalType : GDALDataType
  m_nfTable : Option (List ℚ)
  m_nTableSize : ℤ
  m_nfOffset : ℚ
  lutSizeMetadata : Option ℤ

/-- The RCMCalibRasterBand constructor (lines 630-663): the reported type is
CFloat32 when the passed eType is CInt16 or CFloat32 and Float32 otherwise;
the original type is retained for dispatch; ReadLUT is invoked.  (In the
source, on the failing size check m_nTableSize has already been assigned;
the claims only consult it through states where the table is present.) -/
def mkRCMCalibRasterBand (eType eOriginalType : GDALDataType) (p : LutParams)
    (nRasterXSize : ℤ) : RCMCalibRasterBand :=
  let lut := ReadLUT p nRasterXSize
  { eDataType := if eType = .GDT_CInt16 ∨ eType = .GDT_CFloat32 then
      .GDT_CFloat32 else .GDT_Float32
  , m_eOriginalType := eOriginalType
  , m_nfTable := lut.map Prod.fst
  , m_nTableSize := (lut.map Prod.snd).getD 0
  , m_nfOffset := p.offset
  , lutSizeMetadata := lut.map Prod.snd }

/-- RCMCalibRasterBand::GetLUTsize (line 710). -/
def RCMCalibRasterBand.GetLUTsize (b : RCMCalibRasterBand) : ℤ := b.m_nTableSize

/-- RCMCalibRasterBand::SetPartialLUT (lines 735-802): clamp the offset at 0;
if the offset is inside the current LUT, clamp the width so that
offset + width stays at most GetLUTsize() - 1, and when the resulting width
is positive replace the LUT by the copied slice, set the new size, and
republish LUT_SIZE_band with the new width. -/
def RCMCalibRasterBand.SetPartialLUT (b : RCMCalibRasterBand)
    (pixel_offset0 pixel_width0 : ℤ) : RCMCalibRasterBand :=
  let pixel_offset := if pixel_offset0 < 0 then 0 else pixel_offset0
  if pixel_offset < b.GetLUTsize then
    let pixel_width := if pixel_offset + pixel_width0 > b.GetLUTsize - 1 then
      b.GetLUTsize - pixel_offset - 1 else pixel_width0
    if pixel_width > 0 then
      { b with
        m_nfTable := b.m_nfTable.map (fun t =>
          (t.drop pixel_offset.toNat).take pixel_width.toNat)
      , m_nTableSize := pixel_width
      , lutSizeMetadata := some pixel_width }
    else b
  else b

/-- The invariant claimed for every opened dataset: the published
LUT_SIZE_band metadata equals the LUT length, and the LUT length is at
least the raster width. -/
def LutSizeInvariant (b : RCMCalibRasterBand) (nRasterXSize : ℤ) : Prop :=
  b.lutSizeMetadata = some ((b.m_nfTable.getD []).length : ℤ) ∧
  nRasterXSize ≤ ((b.m_nfTable.getD []).length : ℤ)

instance (b : RCMCalibRasterBand) (w : ℤ) : Decidable (LutSizeInvariant b w) := by
  unfold LutSizeInvariant
  infer_instance

/-- The calibrated-band arm of Open (lines 2209-2244): for complex data the
constructor is invoked with eType GDT_Float32 (the original type is passed
separately for dispatch); otherwise with the dataset element type. -/
def openAttachCalibBand (isComplexData : Bool) (eDataType : GDALDataType)
    (p : LutParams) (nRasterXSize : ℤ) : RCMCalibRasterBand :=
  if isComplexData = true then
    mkRCMCalibRasterBand .GDT_Float32 eDataType p nRasterXSize
  else
    mkRCMCalibRasterBand eDataType eDataType p nRasterXSize

/-- The whole calibrated-band step of Open for one polarization: the band is
constructed (running ReadLUT) and attached with SetBand, and Open proceeds;
this arm of Open has no failure return, whatever ReadLUT did. -/
def openCalibBandArm (bands : List RCMCalibRasterBand) (isComplexData : Bool)
    (eDataType : GDALDataType) (p : LutParams) (nRasterXSize : ℤ) :
    Option (List RCMCalibRasterBand) :=
  some (bands ++ [openAttachCalibBand isComplexData eDataType p nRasterXSize])

/-! ## Calibrated block read (RCMCalibRasterBand::IReadBlock, lines 844-1121) -/

/-- The inputs the calibrated block read consumes: the original element type
retained for dispatch, the geometry, the dense LUT addressed by absolute
column, the offset, and the raw samples the underlying file delivers at an
absolute (row, column): rawRe and rawIm are the two halves for complex
originals; for real originals the sample is rawRe and rawIm is unused. -/
structure RCMCalibReadEnv where
  m_eOriginalType : GDALDataType
  nBlockXSize : ℤ
  nBlockYSize : ℤ
  nRasterXSize : ℤ
  nRasterYSize : ℤ
  m_nfTable : ℤ → ℚ
  m_nfOffset : ℚ
  rawRe : ℤ → ℤ → ℚ
  rawIm : ℤ → ℤ → ℚ

/-- RCMCalibRasterBand::IReadBlock (lines 844-1121).  Straddling blocks zero
the whole output and clip the request.  Dispatch on the original element
type: the three complex branches (GDT_CInt16; GDT_CFloat32 or GDT_CFloat64)
write (re*re + im*im) / (LUT[c] * LUT[c]) and the four real branches
(GDT_Float32, GDT_Float64, GDT_UInt16, GDT_Byte) write
(d*d + offset) / LUT[c] at element offset i * nBlockXSize + j, where
c = nBlockXOff * nBlockXSize + j is the absolute column; any other original
type fails (CPLAssert(FALSE) / CE_Failure).  (The byte-swap the GDT_CInt16
single-band path applies to the not-yet-written output buffer, and the
declared-type confusions of the GDT_Float64 path, are byte-representation
effects below this value-level model.) -/
def RCMCalibRasterBand.IReadBlock (b : RCMCalibReadEnv) (nBlockXOff nBlockYOff : ℤ)
    (pImage : ℤ → ℚ) : Option (ℤ → ℚ) :=
  let nRequestYSize := nRequestSize nBlockYOff b.nBlockYSize b.nRasterYSize
  let nRequestXSize := nRequestSize nBlockXOff b.nBlockXSize b.nRasterXSize
  let pImage1 := if (nBlockYOff + 1) * b.nBlockYSize > b.nRasterYSize then
    (fun _ => (0 : ℚ)) else pImage
  let pImage2 := if (nBlockXOff + 1) * b.nBlockXSize > b.nRasterXSize then
    (fun _ => (0 : ℚ)) else pImage1
  let complexWrites := (loopPairs nRequestYSize nRequestXSize).map (fun q =>
    (q.1 * b.nBlockXSize + q.2,
      (b.rawRe (nBlockYOff * b.nBlockYSize + q.1) (nBlockXOff * b.nBlockXSize + q.2) *
        b.rawRe (nBlockYOff * b.nBlockYSize + q.1) (nBlockXOff * b.nBlockXSize + q.2) +
        b.rawIm (nBlockYOff * b.nBlockYSize + q.1) (nBlockXOff * b.nBlockXSize + q.2) *
        b.rawIm (nBlockYOff * b.nBlockYSize + q.1) (nBlockXOff * b.nBlockXSize + q.2)) /
      (b.m_nfTable (nBlockXOff * b.nBlockXSize + q.2) *
        b.m_nfTable (nBlockXOff * b.nBlockXSize + q.2))))
  let realWrites := (loopPairs nRequestYSize nRequestXSize).map (fun q =>
    (q.1 * b.nBlockXSize + q.2,
      (b.rawRe (nBlockYOff * b.nBlockYSize + q.1) (nBlockXOff * b.nBlockXSize + q.2) *
        b.rawRe (nBlockYOff * b.nBlockYSize + q.1) (nBlockXOff * b.nBlockXSize + q.2) +
        b.m_nfOffset) /
      b.m_nfTable (nBlockXOff * b.nBlockXSize + q.2)))
  if b.m_eOriginalType = .GDT_CInt16 then
    some (runWrites pImage2 complexWrites)
  else if b.m_eOriginalType = .GDT_CFloat32 ∨ b.m_eOriginalType = .GDT_CFloat64 then
    some (runWrites pImage2 complexWrites)
  else if b.m_eOriginalType = .GDT_Float32 then
    some (runWrites pImage2 realWrites)
  else if b.m_eOriginalType = .GDT_Float64 then
    some (runWrites pImage2 realWrites)
  else if b.m_eOriginalType = .GDT_UInt16 then
    some (runWrites pImage2 realWrites)
  else if b.m_eOriginalType = .GDT_Byte then
    some (runWrites pImage2 realWrites)
  else none

/-! ## Open fragments -/

/-- The sample-type and bits-per-sample dispatch of RCMDataset::Open
(lines 1623-1663): Complex yields CFloat32 for 32 bits and CInt16 for
every other bitsPerSample; Magnitude Detected yields Float32 at 32 bits
and UInt16 at 16 bits; anything else is the unsupported-configuration
error (Open deletes the dataset and returns NULL, modelled none). -/
def openSampleTypeMapping (pszSampleType : List Char) (nBitsPerSample : ℤ) :
    Option GDALDataType :=
  if cplEqual pszSampleType "Complex".data then
    some (if nBitsPerSample = 32 then .GDT_CFloat32 else .GDT_CInt16)
  else if nBitsPerSample = 32 ∧ cplEqual pszSampleType "Magnitude Detected".data then
    some .GDT_Float32
  else if nBitsPerSample = 16 ∧ cplEqual pszSampleType "Magnitude Detected".data then
    some .GDT_UInt16
  else none

/-- The subdataset grammar constants of rcmdataset.h. -/
def szLayerCalibration : List Char := "RCM_CALIB".data

def szLayerSeparator : List Char := ":".data

def szSIGMA0 : List Char := "SIGMA0".data

def szGAMMA : List Char := "GAMMA".data

def szBETA0 : List Char := "BETA0".data

def szUNCALIB : List Char := "UNCALIB".data

/-- FormatCalibration(NULL, NULL): the layer name followed by a separator. -/
def formatCalibrationNull : List Char := szLayerCalibration ++ szLayerSeparator

/-- The calibration-tag parse of RCMDataset::Open (lines 1350-1391): when the
filename carries the RCM_CALIB: layer name, the tag that follows selects the
calibration; an unrecognized tag falls through to None. -/
def openCalibSelection (pszFilename : List Char) : eCalibration :=
  if startsWithCI pszFilename formatCalibrationNull then
    let rest := pszFilename.drop (szLayerCalibration.length + 1)
    if startsWithCI rest szBETA0 then .Beta0
    else if startsWithCI rest szSIGMA0 then .Sigma0
    else if startsWithCI rest szGAMMA ∨ startsWithCI rest "GAMMA0".data then .Gamma
    else if startsWithCI rest szUNCALIB then .Uncalib
    else .None
  else .None

/-- The band-kind decision of Open (line 2201): raw RCMRasterBand objects are
built when the calibration is None or Uncalib, RCMCalibRasterBand otherwise. -/
def openBandIsRaw (eCalib : eCalibration) : Bool :=
  decide (eCalib = .None ∨ eCalib = .Uncalib)

/-- The subdataset publication step of Open (lines 2249-2262): when the list
is non-null and the calibration is None the UNCALIB entries are added and
the list is kept; with any selected calibration the list is destroyed. -/
def openSubdatasetsAfter (papszSubDatasets : Option (List (List Char × List Char)))
    (eCalib : eCalibration) (uncalibEntries : List (List Char × List Char)) :
    Option (List (List Char × List Char)) :=
  match papszSubDatasets with
  | some subs => if eCalib = .None then some (subs ++ uncalibEntries) else none
  | none => none

/-! ## Geotransform (Open lines 2360-2410 and GetGeoTransform lines 2755-2766) -/

/-- The corner map coordinates read from positioningInformation. -/
structure PositioningInfo where
  tl_x : ℚ
  tl_y : ℚ
  bl_x : ℚ
  bl_y : ℚ
  tr_x : ℚ
  tr_y : ℚ
  br_x : ℚ
  br_y : ℚ

/-- An affine geotransform 6-tuple. -/
structure GeoTransform where
  gt0 : ℚ
  gt1 : ℚ
  gt2 : ℚ
  gt3 : ℚ
  gt4 : ℚ
  gt5 : ℚ
  deriving DecidableEq, Repr

/-- The affine 6-tuple Open computes from the UL, UR and BL corners
(lines 2373-2380). -/
def computeGeoTransform (nRasterXSize nRasterYSize : ℤ) (p : PositioningInfo) :
    GeoTransform :=
  let gt1 := (p.tr_x - p.tl_x) / ((nRasterXSize : ℚ) - 1)
  let gt4 := (p.tr_y - p.tl_y) / ((nRasterXSize : ℚ) - 1)
  let gt2 := (p.bl_x - p.tl_x) / ((nRasterYSize : ℚ) - 1)
  let gt5 := (p.bl_y - p.tl_y) / ((nRasterYSize : ℚ) - 1)
  { gt0 := p.tl_x - (1 / 2) * gt1 - (1 / 2) * gt2
  , gt1 := gt1
  , gt2 := gt2
  , gt3 := p.tl_y - (1 / 2) * gt4 - (1 / 2) * gt5
  , gt4 := gt4
  , gt5 := gt5 }

/-- The BR-corner prediction (testx, testy) of lines 2387-2392. -/
def geoPredictBR (nRasterXSize nRasterYSize : ℤ) (gt : GeoTransform) : ℚ × ℚ :=
  (gt.gt0 + gt.gt1 * ((nRasterXSize : ℚ) - 1 / 2) + gt.gt2 * ((nRasterYSize : ℚ) - 1 / 2),
   gt.gt3 + gt.gt4 * ((nRasterXSize : ℚ) - 1 / 2) + gt.gt5 * ((nRasterYSize : ℚ) - 1 / 2))

/-- The quarter-pixel consistency test of lines 2396-2399: the prediction
diverges from the descriptor BR corner by more than a quarter pixel on
either axis. -/
def geoCornerMismatch (nRasterXSize nRasterYSize : ℤ) (p : PositioningInfo) : Bool :=
  let gt := computeGeoTransform nRasterXSize nRasterYSize p
  let t := geoPredictBR nRasterXSize nRasterYSize gt
  decide (|t.1 - p.br_x| > |(1 / 4 : ℚ) * (gt.gt1 + gt.gt2)| ∨
    |t.2 - p.br_y| > |(1 / 4 : ℚ) * (gt.gt4 + gt.gt5)|)

/-- The geotransform-related dataset state after Open: the stored tuple, the
validity flag (initialized FALSE by the constructor, set TRUE only on a
consistent corner test), and whether the corner-inconsistency warning was
emitted. -/
structure RCMDatasetGeo where
  adfGeoTransform : GeoTransform
  bHaveGeoTransform : Bool
  geoWarning : Bool

/-- The positioningInformation processing of Open (lines 2360-2410): compute
the tuple; on a failed corner test emit the warning and leave the flag
unset, otherwise set it. -/
def openPositioningInfo (nRasterXSize nRasterYSize : ℤ) (p : PositioningInfo) :
    RCMDatasetGeo :=
  let gt := computeGeoTransform nRasterXSize nRasterYSize p
  if geoCornerMismatch nRasterXSize nRasterYSize p then
    { adfGeoTransform := gt, bHaveGeoTransform := false, geoWarning := true }
  else
    { adfGeoTransform := gt, bHaveGeoTransform := true, geoWarning := false }

/-- RCMDataset::GetGeoTransform (lines 2755-2766): always copy the stored
tuple to the caller, and return CE_None exactly when bHaveGeoTransform. -/
def RCMDataset.GetGeoTransform (ds : RCMDatasetGeo) : GeoTransform × CPLErr :=
  (ds.adfGeoTransform, if ds.bHaveGeoTransform then .CE_None else .CE_Failure)

/-! ## Claims -/

/-- C3 counterexample: the claim says the prober never returns BandError when
the container-is-NITF flag is set, in particular for a NITF file exposing two
bands of unequal element types when a complex type is requested; but on
exactly that input the prober returns BANDERROR, because the unequal-types
check returns before the NITF escape hatch is reached. -/
theorem C3_nitf_prober_counterexample :
    checkBandFileMappingRCM .GDT_CInt16
      { rasterCount := 2, bandType1 := .GDT_Int16, bandType2 := .GDT_Float32 }
      true = .BANDERROR ∧
    BandMappingRCM.BANDERROR ≠ BandMappingRCM.STRAIGHT := by
  constructor
  · rfl
  · intro h
    cases h

/-- C3 amended: with the NITF flag set, the prober returns BandError exactly
when the file exposes two bands of unequal element types and a complex type
is requested; in every other situation where neither the Straight rule nor a
TwoBandComplex rule matches, the NITF escape hatch yields Straight. -/
theorem C3_nitf_prober_amended (dataType : GDALDataType) (f : BandFileInfo) :
    (checkBandFileMappingRCM dataType f true = .BANDERROR ↔
      f.rasterCount = 2 ∧ GDALDataTypeIsComplex dataType = true ∧
        f.bandType1 ≠ f.bandType2) ∧
    checkBandFileMappingRCM dataType f true =
      (if (f.rasterCount = 1 ∨ f.rasterCount = 4) ∧ dataType = f.bandType1 then
        .STRAIGHT
      else if f.rasterCount = 2 ∧ GDALDataTypeIsComplex dataType = true then
        (if f.bandType1 ≠ f.bandType2 then .BANDERROR
         else if (dataType = .GDT_CInt16 ∧ f.bandType1 = .GDT_Int16) ∨
             (dataType = .GDT_CInt32 ∧ f.bandType1 = .GDT_Int32) ∨
             (dataType = .GDT_CFloat32 ∧ f.bandType1 = .GDT_Float32) ∨
             (dataType = .GDT_CFloat64 ∧ f.bandType1 = .GDT_Float64) then
           .TWOBANDCOMPLEX
         else if (dataType = .GDT_CInt16 ∧ f.bandType1 = .GDT_CInt16) ∨
             (dataType = .GDT_CInt32 ∧ f.bandType1 = .GDT_CInt32) ∨
             (dataType = .GDT_CFloat32 ∧ f.bandType1 = .GDT_CFloat32) ∨
             (dataType = .GDT_CFloat64 ∧ f.bandType1 = .GDT_CFloat64) then
           .TWOBANDCOMPLEX
         else .STRAIGHT)
      else .STRAIGHT) := by
  obtain ⟨cnt, t1, t2⟩ := f
  simp only [checkBandFileMappingRCM]
  constructor
  · split_ifs <;> simp_all <;> omega
  · split_ifs <;> simp_all

/-- C10: on a raw (uncalibrated) band the LUT accessors are inert constants:
IsExistLUT is false, GetLUTsize is 0, GetLUTOffset is 0.0, GetLUTFilename is
null, GetLUT returns NaN for every pixel, and SetPartialLUT changes nothing
for all arguments. -/
theorem C10_raw_band_lut_accessors :
    (∀ (b : RCMRasterBand), RCMRasterBand.IsExistLUT b = false) ∧
    (∀ (b : RCMRasterBand), RCMRasterBand.GetLUTsize b = 0) ∧
    (∀ (b : RCMRasterBand), RCMRasterBand.GetLUTOffset b = RDouble.finite 0) ∧
    (∀ (b : RCMRasterBand), RCMRasterBand.GetLUTFilename b = none) ∧
    (∀ (b : RCMRasterBand) (pixel : ℤ), RCMRasterBand.GetLUT b pixel = RDouble.nan) ∧
    (∀ (b : RCMRasterBand) (pixel_offset pixel_width : ℤ),
      RCMRasterBand.SetPartialLUT b pixel_offset pixel_width = b) :=
  ⟨fun _ => rfl, fun _ => rfl, fun _ => rfl, fun _ => rfl,
    fun _ _ => rfl, fun _ _ _ => rfl⟩

/-- C5 counterexample: the claim says any combination other than the four
table rows fails Unsupported; but sampleType Complex with bitsPerSample 8
does not fail: Open maps it to CInt16 (the Complex branch treats every
non-32 bitsPerSample as 16-bit complex). -/
theorem C5_sample_type_counterexample :
    openSampleTypeMapping "Complex".data 8 = some .GDT_CInt16 ∧
    openSampleTypeMapping "Complex".data 8 ≠ none := by
  constructor
  · decide
  · decide

/-- C5 amended: Complex maps to CFloat32 at 32 bits and to CInt16 at every
other bitsPerSample (never Unsupported); Magnitude Detected maps to Float32
at 32 bits and UInt16 at 16 bits; every combination whose sampleType is
neither Complex nor Magnitude Detected with 32 or 16 bits fails Unsupported
and Open returns no dataset. -/
theorem C5_sample_type_amended (pszSampleType : List Char) (nBitsPerSample : ℤ) :
    openSampleTypeMapping pszSampleType nBitsPerSample =
      (if cplEqual pszSampleType "Complex".data = true then
        some (if nBitsPerSample = 32 then .GDT_CFloat32 else .GDT_CInt16)
      else if cplEqual pszSampleType "Magnitude Detected".data = true ∧
          (nBitsPerSample = 32 ∨ nBitsPerSample = 16) then
        some (if nBitsPerSample = 32 then .GDT_Float32 else .GDT_UInt16)
      else none) := by
  unfold openSampleTypeMapping
  split_ifs <;> simp_all

/-- A LUT parameter record whose numberOfValues is 0, so ReadLUT fails its
first check. -/
def lutParamsTrivial : LutParams :=
  { offset := 0, pixelFirstLutValue := 0, stepSize := 0, numberOfValues := 0, gains := [] }

/-- A well-formed LUT parameter record: two raw gains, stepSize 1,
pixelFirstLutValue 1, giving a dense table of 2 entries. -/
def lutParamsC6 : LutParams :=
  { offset := 0, pixelFirstLutValue := 1, stepSize := 1, numberOfValues := 2, gains := [1, 2] }

/-- C4 counterexample: the claim says a calibrated band of a complex product
reports CFloat32; but Open passes GDT_Float32 to the calibrated-band
constructor when isComplexData holds (lines 2227-2233), and the constructor
maps it to GDT_Float32, so the band reports Float32, not CFloat32. -/
theorem C4_reported_type_counterexample :
    (openAttachCalibBand true .GDT_CFloat32 lutParamsTrivial 2).eDataType =
      .GDT_Float32 ∧
    (openAttachCalibBand true .GDT_CFloat32 lutParamsTrivial 2).eDataType ≠
      .GDT_CFloat32 := by
  constructor
  · rfl
  · decide

/-- C4 amended: a calibrated band created at Open always reports Float32 when
the product is complex (Open passes Float32 to the constructor); when the
product is not complex it reports CFloat32 exactly when the element type
passed is CInt16 or CFloat32 (possible only through the NITF CFloat32
override) and Float32 otherwise; a raw band reports the element type it is
constructed with (the native source element type). -/
theorem C4_reported_type_amended :
    (∀ (isComplexData : Bool) (eDataType : GDALDataType) (p : LutParams) (W : ℤ),
      (openAttachCalibBand isComplexData eDataType p W).eDataType =
        (if isComplexData = true then .GDT_Float32
         else if eDataType = .GDT_CInt16 ∨ eDataType = .GDT_CFloat32 then .GDT_CFloat32
         else .GDT_Float32)) ∧
    (∀ (nBandIn : ℤ) (eDataTypeIn : GDALDataType) (b1 b2 b3 : Bool) (blkW blkH : ℤ),
      (mkRCMRasterBand nBandIn eDataTypeIn b1 b2 b3 blkW blkH).eDataType =
        eDataTypeIn) := by
  constructor
  · intro isC et p W
    cases isC <;> simp [openAttachCalibBand, mkRCMCalibRasterBand]
  · intro _ _ _ _ _ _ _
    rfl

/-- C2 counterexample: the claim says a BadLut failure aborts Open (no
dataset is returned); but with numberOfValues 0 ReadLUT fails and leaves the
band LUT unset, and the calibrated-band arm of Open still constructs and
attaches the band and proceeds (there is no failure return in that arm). -/
theorem C2_badlut_counterexample :
    ReadLUT lutParamsTrivial 2 = none ∧
    openCalibBandArm [] true .GDT_CFloat32 lutParamsTrivial 2 =
      some [openAttachCalibBand true .GDT_CFloat32 lutParamsTrivial 2] ∧
    (openAttachCalibBand true .GDT_CFloat32 lutParamsTrivial 2).m_nfTable = none := by
  refine ⟨rfl, rfl, rfl⟩

/-- C2 amended: ReadLUT fails (reports the error and leaves the band LUT
unset) whenever numberOfValues is at most 0, or the step size is 0, or the
synthesized length falls below the raster width; but this failure does not
abort Open: the calibrated band is constructed and attached all the same,
with no LUT table. -/
theorem C2_badlut_amended (p : LutParams) (W : ℤ) (bands : List RCMCalibRasterBand)
    (isComplexData : Bool) (eDataType : GDALDataType)
    (hW : 0 < W)
    (hbad : p.numberOfValues ≤ 0 ∨ |p.stepSize| = 0 ∨
      |p.stepSize| * |p.numberOfValues| < W) :
    ReadLUT p W = none ∧
    openCalibBandArm bands isComplexData eDataType p W =
      some (bands ++ [openAttachCalibBand isComplexData eDataType p W]) ∧
    (openAttachCalibBand isComplexData eDataType p W).m_nfTable = none := by
  have hnone : ReadLUT p W = none := by
    simp only [ReadLUT]
    split_ifs with h1 h2 h3
    · rfl
    · rfl
    · rfl
    · exfalso
      rcases hbad with h | h | h
      · exact h1 h
      · have hx : |p.stepSize| * |p.numberOfValues| = 0 := by rw [h, zero_mul]
        rw [hx] at h3
        exact h3 hW
      · exact h3 h
  refine ⟨hnone, rfl, ?_⟩
  unfold openAttachCalibBand mkRCMCalibRasterBand
  cases isComplexData <;> simp [hnone]

/-- C2 witness: the amended theorem applied at a concrete failing LUT. -/
theorem C2_badlut_witness :
    ((0 : ℤ) < 3 ∧ lutParamsTrivial.numberOfValues ≤ 0) ∧
    (ReadLUT lutParamsTrivial 3 = none ∧
      openCalibBandArm [] false .GDT_UInt16 lutParamsTrivial 3 =
        some ([] ++ [openAttachCalibBand false .GDT_UInt16 lutParamsTrivial 3]) ∧
      (openAttachCalibBand false .GDT_UInt16 lutParamsTrivial 3).m_nfTable = none) :=
  ⟨⟨by decide, by decide⟩,
    C2_badlut_amended lutParamsTrivial 3 [] false .GDT_UInt16 (by decide)
      (Or.inl (by decide))⟩

/-- C6 counterexample: the claimed invariant (LUT_SIZE metadata equals the
LUT length and the length is at least the raster width) holds after Open,
but the caller-initiated SetPartialLUT can shrink the LUT below the raster
width: with a 2-wide raster and a 2-entry LUT, SetPartialLUT(0, 1) leaves a
1-entry LUT, violating the invariant. -/
theorem C6_lut_size_counterexample :
    LutSizeInvariant (mkRCMCalibRasterBand .GDT_UInt16 .GDT_UInt16 lutParamsC6 2) 2 ∧
    ¬ LutSizeInvariant
      (RCMCalibRasterBand.SetPartialLUT
        (mkRCMCalibRasterBand .GDT_UInt16 .GDT_UInt16 lutParamsC6 2) 0 1) 2 := by
  constructor
  · decide
  · decide

/-- C6 amended: the equality between the published LUT_SIZE metadata and the
LUT length is established whenever ReadLUT succeeds at Open and is preserved
by SetPartialLUT, and the length is at least the raster width at Open; but
SetPartialLUT may shrink the LUT below the raster width (see the
counterexample), so only the equality half of the invariant is preserved by
every subsequent operation. -/
theorem C6_lut_size_amended :
    (∀ (eType eOriginalType : GDALDataType) (p : LutParams) (W : ℤ),
      ReadLUT p W ≠ none →
      LutSizeInvariant (mkRCMCalibRasterBand eType eOriginalType p W) W) ∧
    (∀ (b : RCMCalibRasterBand) (t : List ℚ) (pixel_offset pixel_width : ℤ),
      b.m_nfTable = some t →
      b.m_nTableSize = (t.length : ℤ) →
      b.lutSizeMetadata = some ((t.length : ℤ)) →
      (RCMCalibRasterBand.SetPartialLUT b pixel_offset pixel_width).lutSizeMetadata =
        some (((((RCMCalibRasterBand.SetPartialLUT b pixel_offset
          pixel_width).m_nfTable).getD []).length : ℤ))) := by
  constructor
  · intro eT oT p W h
    have hT0 : (0 : ℤ) ≤ |p.stepSize| * |p.numberOfValues| :=
      mul_nonneg (abs_nonneg _) (abs_nonneg _)
    by_cases h1 : p.numberOfValues ≤ 0
    · exfalso
      apply h
      simp only [ReadLUT, h1, if_true]
    · by_cases h2 : p.stepSize ≤ 0 ∧ p.pixelFirstLutValue ≤ 0
      · exfalso
        apply h
        simp [ReadLUT, h1, h2]
      · by_cases h3 : |p.stepSize| * |p.numberOfValues| < W
        · exfalso
          apply h
          simp [ReadLUT, h1, h2, h3]
        · unfold LutSizeInvariant mkRCMCalibRasterBand
          simp [ReadLUT, h1, h2, h3, InterpolateValues_length]
          omega
  · intro b t pixel_offset pixel_width htab hsize hmeta
    unfold RCMCalibRasterBand.SetPartialLUT RCMCalibRasterBand.GetLUTsize
    by_cases hlt : (if pixel_offset < 0 then 0 else pixel_offset) < b.m_nTableSize
    · simp only [hlt, if_true]
      by_cases hpos : (if (if pixel_offset < 0 then 0 else pixel_offset) + pixel_width >
          b.m_nTableSize - 1 then
          b.m_nTableSize - (if pixel_offset < 0 then 0 else pixel_offset) - 1
        else pixel_width) > 0
      · simp only [hpos, if_true, htab]
        simp [List.length_take, List.length_drop]
        rw [hsize] at hlt hpos
        split_ifs at hlt hpos ⊢ <;> omega
      · simp only [hpos, if_false]
        rw [hmeta, htab]
        simp
    · simp only [hlt, if_false]
      rw [hmeta, htab]
      simp

/-- C6 witness: the amended theorem applied to a concrete LUT (both the
Open-time part and the SetPartialLUT preservation part). -/
theorem C6_lut_size_witness :
    (ReadLUT lutParamsC6 2 ≠ none ∧
      LutSizeInvariant (mkRCMCalibRasterBand .GDT_UInt16 .GDT_UInt16 lutParamsC6 2) 2) ∧
    ((mkRCMCalibRasterBand .GDT_UInt16 .GDT_UInt16 lutParamsC6 2).m_nfTable =
        some [1, 1] ∧
      (RCMCalibRasterBand.SetPartialLUT
        (mkRCMCalibRasterBand .GDT_UInt16 .GDT_UInt16 lutParamsC6 2) 0 1).lutSizeMetadata =
        some (((((RCMCalibRasterBand.SetPartialLUT
          (mkRCMCalibRasterBand .GDT_UInt16 .GDT_UInt16 lutParamsC6 2) 0
          1).m_nfTable).getD []).length : ℤ))) :=
  ⟨⟨by decide,
    C6_lut_size_amended.1 .GDT_UInt16 .GDT_UInt16 lutParamsC6 2 (by decide)⟩,
   ⟨by decide,
    C6_lut_size_amended.2 (mkRCMCalibRasterBand .GDT_UInt16 .GDT_UInt16 lutParamsC6 2)
      [1, 1] 0 1 (by decide) (by decide) (by decide)⟩⟩

/-- C8: when positioningInformation is present, Open computes the affine
6-tuple from the UL, UR and BL corners and validates the BR corner with the
quarter-pixel test; on mismatch the warning is emitted and the
geotransform-valid flag stays unset, so GetGeoTransform returns Failure;
otherwise no warning is emitted and GetGeoTransform returns success; in both
cases the tuple handed to the caller is the computed one. -/
theorem C8_geotransform_validation (nRasterXSize nRasterYSize : ℤ)
    (p : PositioningInfo) :
    ((RCMDataset.GetGeoTransform (openPositioningInfo nRasterXSize nRasterYSize p)).2 =
        .CE_Failure ↔ geoCornerMismatch nRasterXSize nRasterYSize p = true) ∧
    ((openPositioningInfo nRasterXSize nRasterYSize p).geoWarning = true ↔
      geoCornerMismatch nRasterXSize nRasterYSize p = true) ∧
    ((RCMDataset.GetGeoTransform (openPositioningInfo nRasterXSize nRasterYSize p)).2 =
        .CE_None ↔ geoCornerMismatch nRasterXSize nRasterYSize p = false) ∧
    (RCMDataset.GetGeoTransform (openPositioningInfo nRasterXSize nRasterYSize p)).1 =
      computeGeoTransform nRasterXSize nRasterYSize p := by
  cases hm : geoCornerMismatch nRasterXSize nRasterYSize p <;>
    simp [RCMDataset.GetGeoTransform, openPositioningInfo, hm]

/-- C9: a filename that begins (case-insensitively) with RCM_CALIB: but whose
calibration tag matches none of BETA0, SIGMA0, GAMMA, GAMMA0, UNCALIB is not
rejected: the calibration falls through to None, the band-construction arm
takes the raw-band branch, and the subdataset list is kept and published
exactly as when no calibration view is selected. -/
theorem C9_unknown_tag_defaults_to_none (pszFilename : List Char)
    (hpre : startsWithCI pszFilename formatCalibrationNull = true)
    (h1 : startsWithCI (pszFilename.drop (szLayerCalibration.length + 1)) szBETA0
      = false)
    (h2 : startsWithCI (pszFilename.drop (szLayerCalibration.length + 1)) szSIGMA0
      = false)
    (h3 : startsWithCI (pszFilename.drop (szLayerCalibration.length + 1)) szGAMMA
      = false)
    (h4 : startsWithCI (pszFilename.drop (szLayerCalibration.length + 1)) "GAMMA0".data
      = false)
    (h5 : startsWithCI (pszFilename.drop (szLayerCalibration.length + 1)) szUNCALIB
      = false) :
    openCalibSelection pszFilename = .None ∧
    openBandIsRaw (openCalibSelection pszFilename) = true ∧
    (∀ (subs uncalibEntries : List (List Char × List Char)),
      openSubdatasetsAfter (some subs) (openCalibSelection pszFilename) uncalibEntries =
        some (subs ++ uncalibEntries)) := by
  have hsel : openCalibSelection pszFilename = .None := by
    unfold openCalibSelection
    simp [hpre, h1, h2, h3, h4, h5]
  refine ⟨hsel, ?_, ?_⟩
  · rw [hsel]
    rfl
  · intro subs uncalibEntries
    rw [hsel]
    rfl

/-- C9 witness: the theorem applied to the concrete unknown-tag reference
RCM_CALIB:FOO:/data/product.xml. -/
theorem C9_unknown_tag_witness :
    (startsWithCI "RCM_CALIB:FOO:/data/product.xml".data formatCalibrationNull = true ∧
      startsWithCI ("RCM_CALIB:FOO:/data/product.xml".data.drop
        (szLayerCalibration.length + 1)) szBETA0 = false) ∧
    (openCalibSelection "RCM_CALIB:FOO:/data/product.xml".data = .None ∧
      openBandIsRaw (openCalibSelection "RCM_CALIB:FOO:/data/product.xml".data) = true ∧
      openSubdatasetsAfter (some [])
        (openCalibSelection "RCM_CALIB:FOO:/data/product.xml".data)
        [("SUBDATASET_1_NAME".data, "RCM_CALIB:UNCALIB:/data/product.xml".data)] =
        some ([] ++
          [("SUBDATASET_1_NAME".data, "RCM_CALIB:UNCALIB:/data/product.xml".data)])) := by
  have h := C9_unknown_tag_defaults_to_none "RCM_CALIB:FOO:/data/product.xml".data
    (by decide) (by decide) (by decide) (by decide) (by decide) (by decide)
  exact ⟨⟨by decide, by decide⟩, h.1, h.2.1,
    h.2.2 [] [("SUBDATASET_1_NAME".data, "RCM_CALIB:UNCALIB:/data/product.xml".data)]⟩

/-- C1: for every calibrated band and in-range block position, IReadBlock
computes the output pixel at absolute column c = nBlockXOff * nBlockXSize + j
by dispatch on the original element type: complex originals (CInt16,
CFloat32, CFloat64) yield (re*re + im*im) / (LUT[c] * LUT[c]); real
originals (UInt16, Byte, Float32, Float64) yield (d*d + offset) / LUT[c];
the result lands at position (i, j) of the output buffer. -/
theorem C1_calib_read_formula (b : RCMCalibReadEnv) (nBlockXOff nBlockYOff i j : ℤ)
    (pImage : ℤ → ℚ)
    (hi0 : 0 ≤ i) (hj0 : 0 ≤ j)
    (hi : i < nRequestSize nBlockYOff b.nBlockYSize b.nRasterYSize)
    (hj : j < nRequestSize nBlockXOff b.nBlockXSize b.nRasterXSize)
    (htype : b.m_eOriginalType = .GDT_CInt16 ∨ b.m_eOriginalType = .GDT_CFloat32 ∨
      b.m_eOriginalType = .GDT_CFloat64 ∨ b.m_eOriginalType = .GDT_UInt16 ∨
      b.m_eOriginalType = .GDT_Byte ∨ b.m_eOriginalType = .GDT_Float32 ∨
      b.m_eOriginalType = .GDT_Float64) :
    ∃ out, RCMCalibRasterBand.IReadBlock b nBlockXOff nBlockYOff pImage = some out ∧
      out (i * b.nBlockXSize + j) =
        (if GDALDataTypeIsComplex b.m_eOriginalType = true then
          (b.rawRe (nBlockYOff * b.nBlockYSize + i) (nBlockXOff * b.nBlockXSize + j) *
            b.rawRe (nBlockYOff * b.nBlockYSize + i) (nBlockXOff * b.nBlockXSize + j) +
            b.rawIm (nBlockYOff * b.nBlockYSize + i) (nBlockXOff * b.nBlockXSize + j) *
            b.rawIm (nBlockYOff * b.nBlockYSize + i) (nBlockXOff * b.nBlockXSize + j)) /
          (b.m_nfTable (nBlockXOff * b.nBlockXSize + j) *
            b.m_nfTable (nBlockXOff * b.nBlockXSize + j))
        else
          (b.rawRe (nBlockYOff * b.nBlockYSize + i) (nBlockXOff * b.nBlockXSize + j) *
            b.rawRe (nBlockYOff * b.nBlockYSize + i) (nBlockXOff * b.nBlockXSize + j) +
            b.m_nfOffset) /
          b.m_nfTable (nBlockXOff * b.nBlockXSize + j)) := by
  have hXW : nRequestSize nBlockXOff b.nBlockXSize b.nRasterXSize ≤ b.nBlockXSize :=
    nRequestSize_le _ _ _
  rcases htype with h | h | h | h | h | h | h <;>
    simp only [RCMCalibRasterBand.IReadBlock, h, GDALDataTypeIsComplex] <;>
    simp only [reduceIte, reduceCtorEq, or_self, or_false, false_or, if_true, if_false] <;>
    exact ⟨_, rfl, runWrites_block_written _ b.nBlockXSize _ _ _ i j hi0 hj0 hi hj hXW⟩

/-- The concrete calibrated-band read environment of the C1 witness: a
UInt16 original, 2-by-1 blocks over a 2-by-1 raster, a constant LUT of 2, a
zero offset, and raw samples of constant 10. -/
def envC1 : RCMCalibReadEnv :=
  { m_eOriginalType := .GDT_UInt16
  , nBlockXSize := 2
  , nBlockYSize := 1
  , nRasterXSize := 2
  , nRasterYSize := 1
  , m_nfTable := fun _ => 2
  , m_nfOffset := 0
  , rawRe := fun _ _ => 10
  , rawIm := fun _ _ => 0 }

/-- C1 witness: the theorem applied at block (0, 0), position (0, 1) of the
concrete environment. -/
theorem C1_calib_read_formula_witness :
    ((0 : ℤ) ≤ 0 ∧ (0 : ℤ) ≤ 1 ∧
      (0 : ℤ) < nRequestSize 0 envC1.nBlockYSize envC1.nRasterYSize ∧
      (1 : ℤ) < nRequestSize 0 envC1.nBlockXSize envC1.nRasterXSize ∧
      envC1.m_eOriginalType = .GDT_UInt16) ∧
    (∃ out, RCMCalibRasterBand.IReadBlock envC1 0 0 (fun _ => 3) = some out ∧
      out (0 * envC1.nBlockXSize + 1) =
        (if GDALDataTypeIsComplex envC1.m_eOriginalType = true then
          (envC1.rawRe (0 * envC1.nBlockYSize + 0) (0 * envC1.nBlockXSize + 1) *
            envC1.rawRe (0 * envC1.nBlockYSize + 0) (0 * envC1.nBlockXSize + 1) +
            envC1.rawIm (0 * envC1.nBlockYSize + 0) (0 * envC1.nBlockXSize + 1) *
            envC1.rawIm (0 * envC1.nBlockYSize + 0) (0 * envC1.nBlockXSize + 1)) /
          (envC1.m_nfTable (0 * envC1.nBlockXSize + 1) *
            envC1.m_nfTable (0 * envC1.nBlockXSize + 1))
        else
          (envC1.rawRe (0 * envC1.nBlockYSize + 0) (0 * envC1.nBlockXSize + 1) *
            envC1.rawRe (0 * envC1.nBlockYSize + 0) (0 * envC1.nBlockXSize + 1) +
            envC1.m_nfOffset) /
          envC1.m_nfTable (0 * envC1.nBlockXSize + 1))) :=
  ⟨⟨by decide, by decide, by decide, by decide, rfl⟩,
    C1_calib_read_formula envC1 0 0 0 1 (fun _ => 3) (by decide) (by decide)
      (by decide) (by decide) (Or.inr (Or.inr (Or.inr (Or.inl rfl))))⟩

/-- C7: for both the raw and the calibrated band, a block straddling the
right or bottom raster edge requests only the covered portion
(width - nBlockXOff * nBlockXSize columns, and likewise for rows), the whole
output is pre-zeroed, and every position of the block outside the covered
portion is left zero in the returned buffer. -/
theorem C7_edge_clipping :
    (∀ (nBlockOff nBlockSize nRasterSize : ℤ),
      (nBlockOff + 1) * nBlockSize > nRasterSize →
      nRequestSize nBlockOff nBlockSize nRasterSize =
        nRasterSize - nBlockOff * nBlockSize) ∧
    (∀ (α : Type) (zero : α) (bm : RCMRasterBandModel α) (nBlockXOff nBlockYOff : ℤ)
      (pImage : ℤ → α) (i j : ℤ) (out : ℤ → α),
      0 ≤ i → i < bm.nBlockYSize → 0 ≤ j → j < bm.nBlockXSize →
      ((nBlockXOff + 1) * bm.nBlockXSize > bm.nRasterXSize ∨
        (nBlockYOff + 1) * bm.nBlockYSize > bm.nRasterYSize) →
      (nRequestSize nBlockYOff bm.nBlockYSize bm.nRasterYSize ≤ i ∨
        nRequestSize nBlockXOff bm.nBlockXSize bm.nRasterXSize ≤ j) →
      RCMRasterBand.IReadBlock bm zero nBlockXOff nBlockYOff pImage = some out →
      out (i * bm.nBlockXSize + j) = zero) ∧
    (∀ (bc : RCMCalibReadEnv) (nBlockXOff nBlockYOff : ℤ) (pImage : ℤ → ℚ)
      (i j : ℤ) (out : ℤ → ℚ),
      0 ≤ i → i < bc.nBlockYSize → 0 ≤ j → j < bc.nBlockXSize →
      ((nBlockXOff + 1) * bc.nBlockXSize > bc.nRasterXSize ∨
        (nBlockYOff + 1) * bc.nBlockYSize > bc.nRasterYSize) →
      (nRequestSize nBlockYOff bc.nBlockYSize bc.nRasterYSize ≤ i ∨
        nRequestSize nBlockXOff bc.nBlockXSize bc.nRasterXSize ≤ j) →
      RCMCalibRasterBand.IReadBlock bc nBlockXOff nBlockYOff pImage = some out →
      out (i * bc.nBlockXSize + j) = 0) := by
  refine ⟨?_, ?_, ?_⟩
  · intro nBlockOff nBlockSize nRasterSize h
    unfold nRequestSize
    rw [if_pos h]
  · intro α zero bm nBlockXOff nBlockYOff pImage i j out hi0 hiH hj0 hjW hstrad
      huncov hsome
    simp only [RCMRasterBand.IReadBlock] at hsome
    split_ifs at hsome <;>
      first
        | exact Option.noConfusion hsome
        | (rw [← Option.some.inj hsome,
            runWrites_block_unwritten _ bm.nBlockXSize _ _ _ i j hj0 hjW huncov
              (nRequestSize_le _ _ _)] <;>
           first | rfl | (exfalso; tauto))
  · intro bc nBlockXOff nBlockYOff pImage i j out hi0 hiH hj0 hjW hstrad
      huncov hsome
    simp only [RCMCalibRasterBand.IReadBlock] at hsome
    split_ifs at hsome <;>
      first
        | exact Option.noConfusion hsome
        | (rw [← Option.some.inj hsome,
            runWrites_block_unwritten _ bc.nBlockXSize _ _ _ i j hj0 hjW huncov
              (nRequestSize_le _ _ _)] <;>
           first | rfl | (exfalso; tauto))

/-- The concrete raw-band read model of the C7 witness: 2-by-1 blocks over a
1-by-1 raster (the block straddles the right edge), straight mapping. -/
def rawC7 : RCMRasterBandModel ℚ :=
  { nBlockXSize := 2
  , nBlockYSize := 1
  , nRasterXSize := 1
  , nRasterYSize := 1
  , twoBandComplex := false
  , isNITF := false
  , datasetIsComplexData := false
  , bandTypeMatches := true
  , sample := fun _ _ => 9 }

/-- C7 witness: the clipped request size and the zeroed uncovered position,
at block (0, 0), position (0, 1) of the concrete raw band. -/
theorem C7_edge_clipping_witness :
    ((0 + 1) * rawC7.nBlockXSize > rawC7.nRasterXSize ∧
      nRequestSize 0 rawC7.nBlockXSize rawC7.nRasterXSize ≤ 1 ∧
      (0 : ℤ) ≤ 0 ∧ (0 : ℤ) < rawC7.nBlockYSize ∧
      (0 : ℤ) ≤ 1 ∧ (1 : ℤ) < rawC7.nBlockXSize) ∧
    nRequestSize 0 rawC7.nBlockXSize rawC7.nRasterXSize =
      rawC7.nRasterXSize - 0 * rawC7.nBlockXSize ∧
    ((RCMRasterBand.IReadBlock rawC7 (0 : ℚ) 0 0 (fun _ => 7)).getD (fun _ => 0))
      (0 * rawC7.nBlockXSize + 1) = 0 := by
  refine ⟨⟨by decide, by decide, by decide, by decide, by decide, by decide⟩, ?_, ?_⟩
  · exact C7_edge_clipping.1 0 rawC7.nBlockXSize rawC7.nRasterXSize (by decide)
  · exact C7_edge_clipping.2.1 ℚ 0 rawC7 0 0 (fun _ => 7) 0 1
      ((RCMRasterBand.IReadBlock rawC7 (0 : ℚ) 0 0 (fun _ => 7)).getD (fun _ => 0))
      (by decide) (by decide) (by decide) (by decide) (Or.inl (by decide))
      (Or.inr (by decide)) rfl
